import Mathlib

/-!
Verification of the credential-resolution and connection-lifecycle subsystem
of the mssql_mcp_server repository (src/mssql_mcp_server/server_enhanced.py),
as a shallow embedding in Lean 4.

Conventions of the embedding:
* Environment variables are modelled as `Option String` fields of `Env`
  (`none` = unset); Python truthiness of such a value is `truthy`.
* Python exceptions are modelled with `Except` / explicit error sums;
  `try/except` blocks become matches on those sums.
* `time.time()` is passed in explicitly as an integer `now` (seconds since
  epoch); the comparison semantics of the code only use `<` / `>=`.
* The token cache file is modelled by `CacheFile`: absent, malformed
  (content that json.load rejects or that is not a JSON object), or a
  parsed record with optional fields (a `dict.get` with a missing key
  yields the default; a `dict[k]` access with a missing key raises
  KeyError, which the surrounding `except` degrades to `None`).
* pyodbc connection handles are identified by allocation ordinals (`Nat`);
  reference equality of handles is equality of ordinals, since each
  successful `pyodbc.connect` call produces a fresh object.
-/

namespace MssqlMcp

/-- Process environment restricted to the variables read by
`get_db_config` (server_enhanced.py lines 44-65). `none` models an unset
variable. -/
structure Env where
  server : Option String
  database : Option String
  auth_method : Option String
  user : Option String
  password : Option String
  client_id : Option String
  client_secret : Option String
  tenant_id : Option String
  connection_timeout : Option String
  encrypt : Option String
  trust_server_certificate : Option String
deriving Repr, DecidableEq

/-- Python truthiness of an optional environment string: `None` and the
empty string are falsy, every other string is truthy (`not config[k]`). -/
def truthy : Option String → Bool
  | none => false
  | some s => !(s == "")

/-- Whitespace characters stripped by Python `int()` before parsing. -/
def pySpace (c : Char) : Bool :=
  c == ' ' || c == '\t' || c == '\n' || c == '\r' || c == '\x0b' || c == '\x0c'

/-- Strip leading and trailing whitespace from a character list. -/
def pyStripChars (l : List Char) : List Char :=
  ((l.dropWhile pySpace).reverse.dropWhile pySpace).reverse

/-- Value of a list of ASCII digits read in base 10. -/
def digitsVal (l : List Char) : Nat :=
  l.foldl (fun a c => a * 10 + (c.toNat - 48)) 0

/-- Model of Python `int(s)` on a string: optional surrounding whitespace,
optional sign, then at least one ASCII decimal digit; anything else raises
ValueError, modelled as `none`. (Digit-grouping underscores and non-ASCII
digits, which CPython also accepts, are not modelled; no value appearing
in this development uses them.) -/
def pyInt (s : String) : Option Int :=
  match pyStripChars s.toList with
  | [] => none
  | c :: rest =>
    let signed : Int × List Char :=
      if c == '-' then (-1, rest) else if c == '+' then (1, rest) else (1, c :: rest)
    if signed.2 ≠ [] ∧ signed.2.all Char.isDigit then
      some (signed.1 * (digitsVal signed.2 : Int))
    else none

/-- ASCII lowercasing of one character (the auth-method strings and flag
values compared by the code are ASCII). -/
def asciiLower (c : Char) : Char :=
  if 65 ≤ c.toNat ∧ c.toNat ≤ 90 then Char.ofNat (c.toNat + 32) else c

/-- Model of Python `s.lower()` restricted to ASCII case mapping. -/
def pyLower (s : String) : String := ⟨s.data.map asciiLower⟩

/-- Model of `s.lower() in ("yes", "true", "1")` used for the encrypt and
trust-server-certificate flags. -/
def pyBoolFlag (s : String) : Bool :=
  let t := pyLower s
  t == "yes" || t == "true" || t == "1"

/-- The validated configuration value produced by `get_db_config`
(the `config` dict of server_enhanced.py lines 46-65). -/
structure DbConfig where
  server : String
  database : String
  auth_method : String
  user : Option String
  password : Option String
  client_id : Option String
  client_secret : Option String
  tenant_id : Option String
  connection_timeout : Int
  encrypt : Bool
  trust_server_certificate : Bool
deriving Repr, DecidableEq

/-- The distinct ValueError messages raised by `get_db_config`, plus the
ValueError raised by `int()` on a malformed timeout string (line 62). The
spec groups the three missing-field errors under `MissingConfig`. -/
inductive ConfigError where
  | invalidIntLiteral (s : String)
  | missingServerDatabase
  | sqlAuthMissingCreds
  | entraPasswordMissingCreds
  | servicePrincipalMissingCreds
  | unsupportedAuthMethod (m : String)
deriving Repr, DecidableEq

/-- Embedding of `get_db_config` (server_enhanced.py lines 44-97).
The `int(...)` conversion of the timeout happens while the config dict
literal is evaluated, before any of the validation checks. -/
def get_db_config (env : Env) : Except ConfigError DbConfig :=
  let timeoutStr := env.connection_timeout.getD "30"
  match pyInt timeoutStr with
  | none => .error (.invalidIntLiteral timeoutStr)
  | some timeout =>
    let auth := pyLower (env.auth_method.getD "sql")
    if !(truthy env.server && truthy env.database) then
      .error .missingServerDatabase
    else
      let authCheck : Except ConfigError Unit :=
        if auth == "sql" then
          if !(truthy env.user && truthy env.password) then
            .error .sqlAuthMissingCreds
          else .ok ()
        else if auth == "entra_password" then
          if !(truthy env.user && truthy env.password) then
            .error .entraPasswordMissingCreds
          else .ok ()
        else if auth == "entra_service_principal" then
          if !(truthy env.client_id && truthy env.client_secret) then
            .error .servicePrincipalMissingCreds
          else .ok ()
        else if auth == "entra_managed_identity" then .ok ()
        else if auth == "entra_integrated" || auth == "entra_interactive" then .ok ()
        else .error (.unsupportedAuthMethod auth)
      match authCheck with
      | .error e => .error e
      | .ok _ => .ok
          { server := env.server.getD ""
            database := env.database.getD ""
            auth_method := auth
            user := env.user
            password := env.password
            client_id := env.client_id
            client_secret := env.client_secret
            tenant_id := env.tenant_id
            connection_timeout := timeout
            encrypt := pyBoolFlag (env.encrypt.getD "yes")
            trust_server_certificate := pyBoolFlag (env.trust_server_certificate.getD "no") }

/-- The per-method required-field table of spec section 4.1, written from
the words of the spec (server and database always required; user/password
for sql and entra_password; client-id/client-secret for
entra_service_principal; nothing extra for the remaining three recognized
methods; an unrecognized method is a violation). -/
def tableOkSpec (env : Env) : Bool :=
  truthy env.server && truthy env.database &&
    (let auth := pyLower (env.auth_method.getD "sql")
     if auth == "sql" || auth == "entra_password" then
       truthy env.user && truthy env.password
     else if auth == "entra_service_principal" then
       truthy env.client_id && truthy env.client_secret
     else
       auth == "entra_managed_identity" || auth == "entra_integrated" ||
         auth == "entra_interactive")

/-- Concrete environment used in the C1 counterexample: all fields of the
section 4.1 table satisfied for the sql method, but the timeout variable
set to a non-numeric string. -/
def envBadTimeout : Env :=
  ⟨some "s", some "d", none, some "u", some "p", none, none, none, some "abc", none, none⟩

/-- Concrete fully-valid environment for the C1 witness. -/
def envSqlOk : Env :=
  ⟨some "s", some "d", none, some "u", some "p", none, none, none, none, none, none⟩

/-- C1, counterexample: in `envBadTimeout` the section 4.1 required-field
table is satisfied, yet `get_db_config` does not succeed and its failure is
neither `MissingConfig` nor `UnsupportedAuthMethod` but the ValueError that
`int("abc")` raises while the config dict is built. Hence the claimed
biconditional (fails with MissingConfig/UnsupportedAuthMethod iff the table
is violated, succeeds in every other case) is false as stated. -/
theorem get_db_config_timeout_counterexample :
    get_db_config envBadTimeout = .error (.invalidIntLiteral "abc") ∧
    tableOkSpec envBadTimeout = true := by
  exact ⟨rfl, by decide⟩

/-- C1 (amended): provided the connection-timeout environment value (or its
default "30") parses as a Python integer literal, `get_db_config` succeeds
iff the per-method required-field table of section 4.1 holds; an absent or
empty server or database yields the MissingConfig error; and with server and
database present, an unrecognized auth-method string yields
UnsupportedAuthMethod carrying that (lowercased) string. -/
theorem get_db_config_matches_table (env : Env)
    (ht : (pyInt (env.connection_timeout.getD "30")).isSome = true) :
    ((∃ c, get_db_config env = .ok c) ↔ tableOkSpec env = true) ∧
    (truthy env.server = false ∨ truthy env.database = false →
      get_db_config env = .error .missingServerDatabase) ∧
    (∀ auth, auth = pyLower (env.auth_method.getD "sql") →
      truthy env.server = true → truthy env.database = true →
      auth ≠ "sql" → auth ≠ "entra_password" → auth ≠ "entra_service_principal" →
      auth ≠ "entra_managed_identity" → auth ≠ "entra_integrated" →
      auth ≠ "entra_interactive" →
      get_db_config env = .error (.unsupportedAuthMethod auth)) := by
  obtain ⟨t, ht⟩ := Option.isSome_iff_exists.mp ht
  refine ⟨?_, ?_, ?_⟩
  · simp only [get_db_config, tableOkSpec, ht]
    cases hs : truthy env.server <;> cases hd : truthy env.database <;>
      simp only [Bool.and_self, Bool.true_and, Bool.false_and, Bool.and_false,
        Bool.not_true, Bool.not_false, if_true, if_false, reduceCtorEq, Bool.false_eq_true,
        false_iff, true_iff, exists_false, ite_true, ite_false] <;>
      try simp_all
    by_cases h1 : pyLower (env.auth_method.getD "sql") = "sql" <;>
      by_cases h2 : pyLower (env.auth_method.getD "sql") = "entra_password" <;>
      by_cases h3 : pyLower (env.auth_method.getD "sql") = "entra_service_principal" <;>
      by_cases h4 : pyLower (env.auth_method.getD "sql") = "entra_managed_identity" <;>
      by_cases h5 : pyLower (env.auth_method.getD "sql") = "entra_integrated" <;>
      by_cases h6 : pyLower (env.auth_method.getD "sql") = "entra_interactive" <;>
      simp_all <;>
      (try cases hu : truthy env.user <;> cases hp : truthy env.password <;> simp_all) <;>
      (try cases hc : truthy env.client_id <;> cases hcs : truthy env.client_secret <;> simp_all)
  · intro h
    simp only [get_db_config, ht]
    rcases h with h | h <;> simp [h]
  · intro auth ha hs hd h1 h2 h3 h4 h5 h6
    subst ha
    simp only [get_db_config, ht]
    simp [hs, hd, h1, h2, h3, h4, h5, h6]

/-- C1, witness: the amended theorem applied to the concrete valid sql
environment `envSqlOk`, whose default timeout "30" parses. -/
theorem get_db_config_matches_table_witness :
    (pyInt (envSqlOk.connection_timeout.getD "30")).isSome = true ∧
    ((∃ c, get_db_config envSqlOk = .ok c) ↔ tableOkSpec envSqlOk = true) :=
  ⟨by decide, (get_db_config_matches_table envSqlOk (by decide)).1⟩

/-- A parsed token-cache JSON object (the `cache_data` dict written by
`save_token`, lines 212-218). Each field is optional: `dict.get(k)` on a
missing key yields `None`, `dict.get(k, 0)` yields 0, and `dict[k]` raises
KeyError (degraded to `None` by the surrounding `except`). -/
structure CacheRecord where
  token : Option String
  expires_on : Option Int
  server : Option String
  database : Option String
  cached_at : Option Int
deriving Repr, DecidableEq

/-- State of the token cache file: absent, present but rejected by
`json.load` (or not a JSON object), or a parsed record. -/
inductive CacheFile where
  | absent
  | malformed
  | record (r : CacheRecord)
deriving Repr, DecidableEq

/-- The value `load_token` returns on success: the dict
`{"token": ..., "expires_on": ...}` of lines 259-262. -/
structure TokenData where
  token : String
  expires_on : Int
deriving Repr, DecidableEq

/-- Embedding of `TokenCache.load_token` (lines 230-266). Absent file and
malformed content return `None`; a (server, database) mismatch returns
`None`; `now >= expires_on - 300` with `expires_on` defaulting to 0 returns
`None`; otherwise the final dict literal reads `cache_data["token"]` and
`cache_data["expires_on"]` with bracket access, whose KeyError on a missing
key is caught by the enclosing `except` and degraded to `None`. -/
def load_token (config : DbConfig) (file : CacheFile) (now : Int) : Option TokenData :=
  match file with
  | .absent => none
  | .malformed => none
  | .record r =>
    if r.server ≠ some config.server ∨ r.database ≠ some config.database then none
    else
      if now ≥ r.expires_on.getD 0 - 300 then none
      else
        match r.token, r.expires_on with
        | some tok, some e => some ⟨tok, e⟩
        | _, _ => none

/-- Embedding of the successful write path of `TokenCache.save_token`
(lines 206-228): the cache file is replaced by the single record holding
the token, its expiry, the (server, database) of the config, and the
current time. (A write failure is logged and swallowed by the code,
leaving the previous file state; no claim here quantifies over that.) -/
def save_token (td : TokenData) (config : DbConfig) (now : Int) : CacheFile :=
  .record ⟨some td.token, some td.expires_on, some config.server, some config.database, some now⟩

/-- Result of `TOKEN_CACHE_FILE.unlink()`: deletion succeeds and the file
is gone, or the filesystem raises OSError (modelled as an error value). -/
def unlinkResult (unlinkOk : Bool) : Except String CacheFile :=
  if unlinkOk then .ok .absent else .error "unlink failed"

/-- Embedding of `TokenCache.clear_cache` (lines 268-276): unlink is
attempted only when the file exists, and any exception from the body is
caught by the `except` branch (logged, swallowed), leaving the file as it
was; the function itself never propagates an error. -/
def clear_cache (file : CacheFile) (unlinkOk : Bool) : Except String CacheFile :=
  let body : Except String CacheFile :=
    match file with
    | .absent => .ok file
    | _ => unlinkResult unlinkOk
  match body with
  | .ok f => .ok f
  | .error _ => .ok file

/-- Success text of the clear_token_cache branch of `call_tool`
(line 574; leading emoji elided). -/
def clearCacheSuccessText : String :=
  "Token cache cleared successfully. Next database operation will require fresh authentication."

/-- The process-global mutable state visible to the tool handlers: the
`_cached_connection` global (handles named by allocation ordinal, with the
next fresh ordinal), and the token cache file. -/
structure ServerState where
  cachedConnection : Option Nat
  nextConnId : Nat
  cacheFile : CacheFile
deriving Repr, DecidableEq

/-- Embedding of the clear_token_cache branch of `call_tool` (lines
571-577): it calls `TokenCache.clear_cache()` inside try/except and
returns the success text, or the error text if `clear_cache` raised. This
branch neither reads nor writes `_cached_connection`. -/
def call_tool_clear_token_cache (s : ServerState) (unlinkOk : Bool) : String × ServerState :=
  match clear_cache s.cacheFile unlinkOk with
  | .ok f => (clearCacheSuccessText, { s with cacheFile := f })
  | .error e => ("Error clearing token cache: " ++ e, s)

/-- A concrete well-formed cache record used by witnesses and
counterexamples. -/
def recEx : CacheRecord := ⟨some "tok", some 1000, some "s", some "d", none⟩

/-- A concrete resolved configuration used by witnesses. -/
def cfgEx : DbConfig := ⟨"s", "d", "sql", some "u", some "p", none, none, none, 30, true, false⟩

/-- C2: `load_token` returns a token exactly when the cache file holds a
parsed record whose token field is present, whose (server, database) pair
equals that of the config, and whose stored expiry satisfies
`now < expires_on - 300` (strict, 300-second buffer); in every other case
(absent file, malformed content, missing fields, mismatch, or expiry
within the buffer) it returns `None`, and read/parse errors only ever
degrade to `None`. -/
theorem load_token_characterization (config : DbConfig) (file : CacheFile) (now : Int)
    (td : TokenData) :
    load_token config file now = some td ↔
      ∃ r, file = CacheFile.record r ∧ r.token = some td.token ∧
        r.expires_on = some td.expires_on ∧ r.server = some config.server ∧
        r.database = some config.database ∧ now < td.expires_on - 300 := by
  cases file with
  | absent => simp [load_token]
  | malformed => simp [load_token]
  | record r =>
    obtain ⟨tok, exp, srv, db, ca⟩ := r
    simp only [load_token]
    split_ifs with hm he
    · simp only [reduceCtorEq, false_iff]
      rintro ⟨r', hr', htok, hexp, hsrv, hdb, hlt⟩
      cases hr'
      simp_all
    · simp only [reduceCtorEq, false_iff]
      rintro ⟨r', hr', htok, hexp, hsrv, hdb, hlt⟩
      cases hr'
      simp_all
      omega
    · cases tok <;> cases exp <;> simp_all <;> try omega
      constructor
      · rintro rfl
        simp_all
        omega
      · rintro ⟨h1, h2⟩
        simp_all

/-- C7: a `save_token` followed by `load_token` with the identical config
returns exactly the saved token, provided the load-time clock satisfies
`now < expires_on - 300`. -/
theorem save_then_load_roundtrip (td : TokenData) (config : DbConfig)
    (nowSave nowLoad : Int) (h : nowLoad < td.expires_on - 300) :
    load_token config (save_token td config nowSave) nowLoad = some td := by
  have h2 : ¬ (nowLoad ≥ td.expires_on - 300) := by
    omega
  simp [load_token, save_token, h2]

/-- C7, witness: round-trip at the concrete config `cfgEx`, token "tok"
expiring at 1000, loaded at time 0. -/
theorem save_then_load_roundtrip_witness :
    (0 : Int) < (1000 : Int) - 300 ∧
    load_token cfgEx (save_token ⟨"tok", 1000⟩ cfgEx 0) 0 = some ⟨"tok", 1000⟩ :=
  ⟨by decide, save_then_load_roundtrip ⟨"tok", 1000⟩ cfgEx 0 0 (by decide)⟩

/-- C9: a well-formed cache record matching the current (server, database)
but lacking the `expires_on` field makes `load_token` treat the expiry as
0 (the `dict.get` default of line 248), so the load returns `None` for
every clock value instead of failing or producing a token without an
expiry. -/
theorem load_token_missing_expiry (config : DbConfig) (r : CacheRecord) (now : Int)
    (hsrv : r.server = some config.server) (hdb : r.database = some config.database)
    (hexp : r.expires_on = none) :
    load_token config (.record r) now = none := by
  simp only [load_token, hsrv, hdb, hexp, Option.getD_none]
  simp only [ne_eq, not_true_eq_false, false_or, or_self, if_false]
  split_ifs with h
  · rfl
  · cases htok : r.token <;> simp [hexp]

/-- C9, witness: a concrete matching record with token "tok" and no
expiry field loads as `None` at time 0. -/
theorem load_token_missing_expiry_witness :
    (⟨some "tok", none, some "s", some "d", none⟩ : CacheRecord).expires_on = none ∧
    load_token cfgEx (.record ⟨some "tok", none, some "s", some "d", none⟩) 0 = none :=
  ⟨rfl, load_token_missing_expiry cfgEx ⟨some "tok", none, some "s", some "d", none⟩ 0 rfl rfl rfl⟩

/-- C3, counterexample: invoking the clear_token_cache tool on a state
with a live cached connection (ordinal 0) and a present cache file leaves
the cached connection in place (it is NOT discarded, the manager does not
transition to Empty) and deletes the token cache file (its contents are
NOT unchanged) — the opposite of the claim on both counts. -/
theorem clear_token_cache_counterexample :
    (call_tool_clear_token_cache ⟨some 0, 1, .record recEx⟩ true).2.cachedConnection = some 0 ∧
    (call_tool_clear_token_cache ⟨some 0, 1, .record recEx⟩ true).2.cacheFile = .absent ∧
    (⟨some 0, 1, .record recEx⟩ : ServerState).cacheFile ≠ .absent := by
  exact ⟨rfl, rfl, by decide⟩

/-- C3 (amended): the clear_token_cache tool does not touch the cached
connection (the `_cached_connection` global and the fresh-handle counter
are unchanged), and it deletes the token cache file when the deletion
succeeds or the file was already absent, leaving the file unchanged when
the deletion raises (the error being swallowed). -/
theorem clear_token_cache_frame (s : ServerState) (unlinkOk : Bool) :
    (call_tool_clear_token_cache s unlinkOk).2.cachedConnection = s.cachedConnection ∧
    (call_tool_clear_token_cache s unlinkOk).2.nextConnId = s.nextConnId ∧
    (unlinkOk = true → (call_tool_clear_token_cache s unlinkOk).2.cacheFile = .absent) ∧
    (s.cacheFile = .absent → (call_tool_clear_token_cache s unlinkOk).2.cacheFile = .absent) ∧
    (unlinkOk = false → (call_tool_clear_token_cache s unlinkOk).2.cacheFile = s.cacheFile) := by
  obtain ⟨c, n, f⟩ := s
  cases f <;> cases unlinkOk <;>
    simp [call_tool_clear_token_cache, clear_cache, unlinkResult]

/-- C3, witness: the amended frame theorem at a concrete state with a live
connection, a present cache file, and a succeeding deletion. -/
theorem clear_token_cache_frame_witness :
    (call_tool_clear_token_cache ⟨some 0, 1, .record recEx⟩ true).2.cacheFile = .absent ∧
    (call_tool_clear_token_cache ⟨some 0, 1, .record recEx⟩ true).2.cachedConnection = some 0 :=
  ⟨(clear_token_cache_frame ⟨some 0, 1, .record recEx⟩ true).2.2.1 rfl,
   (clear_token_cache_frame ⟨some 0, 1, .record recEx⟩ true).1⟩

/-- C10: for every filesystem state and every deletion outcome,
`TokenCache.clear_cache` returns normally (its internal `except` swallows
any exception), so the error branch of the tool handler is unreachable and
the clear_token_cache tool always answers with the success text. -/
theorem clear_token_cache_always_succeeds (s : ServerState) (unlinkOk : Bool) :
    (call_tool_clear_token_cache s unlinkOk).1 = clearCacheSuccessText ∧
    ∃ f, clear_cache s.cacheFile unlinkOk = .ok f := by
  obtain ⟨c, n, f⟩ := s
  cases f <;> cases unlinkOk <;>
    simp [call_tool_clear_token_cache, clear_cache, unlinkResult, clearCacheSuccessText]

/-- State of the module-global connection cache: `_cached_connection`
(handles named by allocation ordinal) and the next fresh ordinal, standing
for the fact that each successful `pyodbc.connect` call returns a new
object distinct from every earlier one. -/
structure ConnState where
  cached : Option Nat
  nextId : Nat
deriving Repr, DecidableEq

/-- Observable events of one `get_cached_connection` invocation, in
program order: the liveness probe on the cached handle ("SELECT 1",
succeeding or raising), the discard `_cached_connection = None`, and the
`get_connection()` call (allocating a fresh handle, or raising). -/
inductive AcqEvent where
  | probeOk (h : Nat)
  | probeFail (h : Nat)
  | discard (h : Nat)
  | openNew (h : Nat)
  | openFail
deriving Repr, DecidableEq

/-- Embedding of the body of `get_cached_connection` (lines 406-428),
which runs entirely under `_connection_lock`. `probeOk` is the outcome of
the "SELECT 1" probe on the cached handle; `openOk` tells whether
`get_connection()` returns a fresh handle or raises (a raise anywhere in
config resolution, credential acquisition, or the driver open). Returns
the result handed to the caller, the post-state of the globals, and the
ordered event trace. -/
def get_cached_connection (s : ConnState) (probeOk openOk : Bool) :
    Except String Nat × ConnState × List AcqEvent :=
  match s.cached with
  | some h =>
    if probeOk then (.ok h, s, [.probeOk h])
    else if openOk then
      (.ok s.nextId, ⟨some s.nextId, s.nextId + 1⟩, [.probeFail h, .discard h, .openNew s.nextId])
    else
      (.error "connection failed", ⟨none, s.nextId⟩, [.probeFail h, .discard h, .openFail])
  | none =>
    if openOk then (.ok s.nextId, ⟨some s.nextId, s.nextId + 1⟩, [.openNew s.nextId])
    else (.error "connection failed", ⟨none, s.nextId⟩, [.openFail])

/-- C4: after any successful `get_cached_connection` call that returned
handle `h`, a second call whose probe succeeds returns the identical
handle `h` with the state untouched; a second call whose probe fails and
whose re-open succeeds returns a handle distinct from `h`, its trace
showing the failed handle discarded before the new open. The hypothesis
`hwf` is the allocation invariant (every cached handle was allocated
earlier than the next fresh ordinal), which holds of the initial empty
state and is preserved by every call. -/
theorem acquire_twice (s : ConnState) (hwf : ∀ g, s.cached = some g → g < s.nextId)
    (p1 o1 : Bool) (h : Nat) (s1 : ConnState) (tr1 : List AcqEvent)
    (hc : get_cached_connection s p1 o1 = (.ok h, s1, tr1)) :
    (∀ o2, get_cached_connection s1 true o2 = (.ok h, s1, [.probeOk h])) ∧
    (∀ h2 s2 tr2, get_cached_connection s1 false true = (.ok h2, s2, tr2) →
      h2 ≠ h ∧ tr2 = [.probeFail h, .discard h, .openNew h2]) := by
  have key : s1.cached = some h ∧ h < s1.nextId := by
    obtain ⟨c, n⟩ := s
    cases c with
    | none =>
      cases o1 with
      | false => simp [get_cached_connection] at hc
      | true =>
        simp only [get_cached_connection, if_true, Prod.mk.injEq, Except.ok.injEq] at hc
        obtain ⟨h1, h2, h3⟩ := hc
        subst h1; subst h2
        exact ⟨rfl, by simp⟩
    | some g =>
      have hg := hwf g rfl
      cases p1 with
      | true =>
        simp only [get_cached_connection, if_true, Prod.mk.injEq, Except.ok.injEq] at hc
        obtain ⟨h1, h2, h3⟩ := hc
        subst h1; subst h2
        exact ⟨rfl, hg⟩
      | false =>
        cases o1 with
        | false => simp [get_cached_connection] at hc
        | true =>
          simp only [get_cached_connection, if_false, if_true, Bool.false_eq_true,
            Prod.mk.injEq, Except.ok.injEq] at hc
          obtain ⟨h1, h2, h3⟩ := hc
          subst h1; subst h2
          exact ⟨rfl, by simp⟩
  obtain ⟨k1, k2⟩ := key
  constructor
  · intro o2
    simp [get_cached_connection, k1]
  · intro h2 s2 tr2 hc2
    simp [get_cached_connection, k1] at hc2
    obtain ⟨hh2, -, htr⟩ := hc2
    subst hh2
    exact ⟨by omega, by simp_all⟩

/-- C4, witness: from the empty state, the first call opens handle 0; a
probe-success second call returns handle 0 again with the same state, and
a probe-failure second call returns the distinct handle 1 after
discarding handle 0. -/
theorem acquire_twice_witness :
    get_cached_connection ⟨some 0, 1⟩ true true = (.ok 0, ⟨some 0, 1⟩, [.probeOk 0]) ∧
    ((1 : Nat) ≠ 0 ∧ [AcqEvent.probeFail 0, .discard 0, .openNew 1] =
      [AcqEvent.probeFail 0, .discard 0, .openNew 1]) :=
  ⟨(acquire_twice ⟨none, 0⟩ (fun _ hg => Option.noConfusion hg) true true 0 ⟨some 0, 1⟩
      [.openNew 0] rfl).1 true,
   (acquire_twice ⟨none, 0⟩ (fun _ hg => Option.noConfusion hg) true true 0 ⟨some 0, 1⟩
      [.openNew 0] rfl).2 1 ⟨some 1, 2⟩ _ rfl⟩

/-- C6: whenever `get_cached_connection` starts Empty, or reaches Empty
through a probe failure, and the subsequent `get_connection()` raises
(anywhere in resolution or open), the error propagates to the caller and
the cached-connection global is `None` afterwards: no partial or dead
handle is retained. -/
theorem acquire_failure_leaves_empty (s : ConnState) (probeOk : Bool)
    (h : s.cached = none ∨ probeOk = false) :
    (get_cached_connection s probeOk false).1 = .error "connection failed" ∧
    (get_cached_connection s probeOk false).2.1 = ⟨none, s.nextId⟩ := by
  obtain ⟨c, n⟩ := s
  rcases h with h | h
  · simp only at h
    subst h
    simp [get_cached_connection]
  · subst h
    cases c <;> simp [get_cached_connection]

/-- C6, witness: an open failure from the concrete empty state propagates
the error and leaves the state empty. -/
theorem acquire_failure_leaves_empty_witness :
    (get_cached_connection ⟨none, 5⟩ true false).1 = .error "connection failed" ∧
    (get_cached_connection ⟨none, 5⟩ true false).2.1 = ⟨none, 5⟩ :=
  acquire_failure_leaves_empty ⟨none, 5⟩ true (Or.inl rfl)

/-- Phase of one caller inside an interleaved execution of
`get_cached_connection`: waiting to enter `async with _connection_lock`;
holding the lock, about to inspect `_cached_connection`; holding the lock
having observed it `None`, about to call `get_connection()`; or returned
with a handle. -/
inductive Phase where
  | ready
  | checking
  | creating
  | finished (h : Nat)
deriving Repr, DecidableEq

/-- Global state of interleaved `get_cached_connection` invocations on the
asyncio event loop: the holder of `_connection_lock` (if any), the
`_cached_connection` global, the fresh-handle counter, the count of
`get_connection()` open calls performed so far, and the phase of each
caller (indexed by `Nat`). -/
structure MultiState where
  lock : Option Nat
  cached : Option Nat
  nextId : Nat
  opens : Nat
  phases : Nat → Phase

/-- One scheduler step of caller `i`, as the asyncio event loop can
interleave them: a ready caller acquires the lock only when it is free; a
caller holding the lock inspects `_cached_connection` (probes of a live
handle succeed in the scenario of this claim, so observing a handle
finishes with it, and observing `None` moves on to create); a creating
caller performs the open, publishes the fresh handle, and finishes. The
lock is held across the whole body and released only on finishing. A
caller that is blocked or already finished leaves the state unchanged. -/
def mstep (g : MultiState) (i : Nat) : MultiState :=
  match g.phases i with
  | .ready =>
    if g.lock = none then
      { g with lock := some i, phases := Function.update g.phases i .checking }
    else g
  | .checking =>
    match g.cached with
    | some h => { g with lock := none, phases := Function.update g.phases i (.finished h) }
    | none => { g with phases := Function.update g.phases i .creating }
  | .creating =>
    { g with cached := some g.nextId, nextId := g.nextId + 1, opens := g.opens + 1,
             lock := none, phases := Function.update g.phases i (.finished g.nextId) }
  | .finished _ => g

/-- Run a schedule (an arbitrary interleaving, as a list of caller
indices) from a state. -/
def mrun (g : MultiState) : List Nat → MultiState
  | [] => g
  | i :: rest => mrun (mstep g i) rest

/-- The initial state of the C8 scenario: every caller about to invoke
acquire, lock free, `_cached_connection = None`, no opens performed. -/
def minit : MultiState := ⟨none, none, 0, 0, fun _ => .ready⟩

/-- Inductive invariant of the interleaved system: (1) any caller between
lock acquisition and release is the unique lock holder; (2) a caller about
to open has observed the cache empty, and it stays empty until that caller
publishes, because only the lock holder can write it; (3) either nothing
was opened yet and nobody finished, or exactly one open happened and every
finished caller got that one published handle. -/
def MInv (g : MultiState) : Prop :=
  (∀ i, (g.phases i = .checking ∨ g.phases i = .creating) → g.lock = some i) ∧
  (∀ i, g.phases i = .creating → g.cached = none) ∧
  ((g.cached = none ∧ g.opens = 0 ∧ ∀ i h, g.phases i ≠ .finished h) ∨
   (∃ h, g.cached = some h ∧ g.opens = 1 ∧
      ∀ i h', g.phases i = .finished h' → h' = h))

/-- Each scheduler step preserves the invariant `MInv`. -/
theorem minv_mstep (g : MultiState) (i : Nat) (hg : MInv g) : MInv (mstep g i) := by
  obtain ⟨h1, h2, h3⟩ := hg
  cases hph : g.phases i with
  | ready =>
    by_cases hl : g.lock = none
    · simp only [mstep, hph, hl, if_true]
      refine ⟨?_, ?_, ?_⟩
      · intro j hj
        simp only [Function.update_apply] at hj
        by_cases hji : j = i
        · simp [hji]
        · simp only [hji, if_false] at hj
          have := h1 j hj
          rw [hl] at this
          exact absurd this (by simp)
      · intro j hj
        simp only [Function.update_apply] at hj
        by_cases hji : j = i
        · simp [hji] at hj
        · simp only [hji, if_false] at hj
          exact h2 j hj
      · rcases h3 with ⟨hc, ho, hf⟩ | ⟨h0, hc, ho, hf⟩
        · left
          refine ⟨hc, ho, ?_⟩
          intro j h
          simp only [Function.update_apply]
          by_cases hji : j = i
          · simp [hji]
          · simp only [hji, if_false]
            exact hf j h
        · right
          refine ⟨h0, hc, ho, ?_⟩
          intro j h' hj
          simp only [Function.update_apply] at hj
          by_cases hji : j = i
          · simp [hji] at hj
          · simp only [hji, if_false] at hj
            exact hf j h' hj
    · simp only [mstep, hph, hl, if_false]
      exact ⟨h1, h2, h3⟩
  | checking =>
    have hli : g.lock = some i := h1 i (Or.inl hph)
    cases hc : g.cached with
    | some h =>
      simp only [mstep, hph, hc]
      refine ⟨?_, ?_, ?_⟩
      · intro j hj
        simp only [Function.update_apply] at hj
        by_cases hji : j = i
        · simp [hji] at hj
        · simp only [hji, if_false] at hj
          have := h1 j hj
          rw [hli] at this
          simp only [Option.some_inj] at this
          exact absurd this.symm hji
      · intro j hj
        simp only [Function.update_apply] at hj
        by_cases hji : j = i
        · simp [hji] at hj
        · simp only [hji, if_false] at hj
          have := h2 j hj
          rw [hc] at this
          exact absurd this (by simp)
      · rcases h3 with ⟨hc', ho, hf⟩ | ⟨h0, hc', ho, hf⟩
        · rw [hc] at hc'; exact absurd hc' (by simp)
        · have hh0 : h = h0 := by
            rw [hc] at hc'
            exact Option.some_inj.mp hc'
          right
          refine ⟨h0, by rw [hh0], ho, ?_⟩
          intro j h' hj
          simp only [Function.update_apply] at hj
          by_cases hji : j = i
          · simp only [hji, if_true] at hj
            cases hj
            exact hh0
          · simp only [hji, if_false] at hj
            exact hf j h' hj
    | none =>
      simp only [mstep, hph, hc]
      refine ⟨?_, ?_, ?_⟩
      · intro j hj
        simp only [Function.update_apply] at hj
        by_cases hji : j = i
        · subst hji; exact hli
        · simp only [hji, if_false] at hj
          exact h1 j hj
      · intro j hj
        rfl
      · rcases h3 with ⟨hc', ho, hf⟩ | ⟨h0, hc', ho, hf⟩
        · left
          refine ⟨rfl, ho, ?_⟩
          intro j h
          simp only [Function.update_apply]
          by_cases hji : j = i
          · simp [hji]
          · simp only [hji, if_false]
            exact hf j h
        · rw [hc] at hc'; exact absurd hc' (by simp)
  | creating =>
    have hli : g.lock = some i := h1 i (Or.inr hph)
    have hcn : g.cached = none := h2 i hph
    simp only [mstep, hph]
    refine ⟨?_, ?_, ?_⟩
    · intro j hj
      simp only [Function.update_apply] at hj
      by_cases hji : j = i
      · simp [hji] at hj
      · simp only [hji, if_false] at hj
        have := h1 j hj
        rw [hli] at this
        simp only [Option.some_inj] at this
        exact absurd this.symm hji
    · intro j hj
      simp only [Function.update_apply] at hj
      by_cases hji : j = i
      · simp [hji] at hj
      · simp only [hji, if_false] at hj
        have := h1 j (Or.inr hj)
        rw [hli] at this
        simp only [Option.some_inj] at this
        exact absurd this.symm hji
    · rcases h3 with ⟨hc', ho, hf⟩ | ⟨h0, hc', ho, hf⟩
      · right
        refine ⟨g.nextId, rfl, by simp [ho], ?_⟩
        intro j h' hj
        simp only [Function.update_apply] at hj
        by_cases hji : j = i
        · simp only [hji, if_true] at hj
          cases hj
          rfl
        · simp only [hji, if_false] at hj
          exact absurd hj (hf j h')
      · rw [hcn] at hc'; exact absurd hc' (by simp)
  | finished h =>
    simp only [mstep, hph]
    exact ⟨h1, h2, h3⟩


/-- Any schedule preserves the invariant `MInv`. -/
theorem minv_mrun (g : MultiState) (sched : List Nat) (hg : MInv g) :
    MInv (mrun g sched) := by
  induction sched generalizing g with
  | nil => exact hg
  | cons i rest ih => exact ih _ (minv_mstep g i hg)

/-- The initial state satisfies the invariant. -/
theorem minv_minit : MInv minit := by
  refine ⟨?_, ?_, Or.inl ⟨rfl, rfl, ?_⟩⟩
  · intro i h
    rcases h with h | h <;> exact Phase.noConfusion h
  · intro i h
    exact Phase.noConfusion h
  · intro i h
    exact fun hc => Phase.noConfusion hc

/-- C8: for every interleaving of N callers invoking acquire from the
Empty state, if all N callers have finished, then exactly one
`get_connection()` open happened and all N callers received the same
handle: since the whole body (inspection plus possible creation) runs
under the exclusive non-reentrant `_connection_lock`, no two callers can
both observe Empty and each open a connection. -/
theorem acquire_concurrent (sched : List Nat) (n : Nat) (hn : 0 < n)
    (hfin : ∀ i, i < n → ∃ h, (mrun minit sched).phases i = .finished h) :
    (mrun minit sched).opens = 1 ∧
    ∃ h, ∀ i, i < n → (mrun minit sched).phases i = .finished h := by
  have hinv := minv_mrun minit sched minv_minit
  obtain ⟨-, -, hdisj⟩ := hinv
  obtain ⟨h0, hf0⟩ := hfin 0 hn
  rcases hdisj with ⟨-, -, hnofin⟩ | ⟨h, -, ho, hagree⟩
  · exact absurd hf0 (hnofin 0 h0)
  · refine ⟨ho, h, ?_⟩
    intro i hi
    obtain ⟨h', hf'⟩ := hfin i hi
    rw [hf', hagree i h' hf']

/-- C8, witness: a concrete interleaving of two callers (the second
attempts to acquire the lock while the first holds it, then proceeds after
the release) in which both finish: one open happened. -/
theorem acquire_concurrent_witness :
    (mrun minit [0, 0, 0, 1, 1]).opens = 1 :=
  (acquire_concurrent [0, 0, 0, 1, 1] 2 (by decide)
    (fun i hi => by
      interval_cases i
      · exact ⟨0, rfl⟩
      · exact ⟨0, rfl⟩)).1

/-- Observable events of one `get_entra_interactive_connection` request,
in program order: a `pyodbc.connect` attempt with the cached token, the
`TokenCache.clear_cache()` call, a `DefaultAzureCredential().get_token`
attempt, an `InteractiveBrowserCredential(...).get_token` attempt, and a
`TokenCache.save_token` write. -/
inductive AuthEvent where
  | cachedConnectAttempt (token : String)
  | cacheCleared
  | defaultCredAttempt
  | browserCredAttempt
  | tokenSaved (token : String)
deriving Repr, DecidableEq

/-- Outcomes of the external calls made by
`get_entra_interactive_connection`, fixed per request: the driver open
with the cached token, the ambient (default) credential chain, the driver
open with the default-chain token, the interactive browser credential
flow, and the driver open with the browser token. Errors carry opaque
messages; successful opens yield a handle. -/
structure EntraOracles where
  connectCached : Except String Nat
  defaultCred : Except String TokenData
  connectDefault : Except String Nat
  browserCred : Except String TokenData
  connectBrowser : Except String Nat
deriving Repr

/-- Embedding of the inner `InteractiveBrowserCredential` fallback block
(lines 338-372): obtain a token interactively, save it, open the driver
connection; any exception inside the block is re-raised (`raise`), so the
request fails with the last underlying error. -/
def browserAuth (config : DbConfig) (o : EntraOracles) (now : Int) (file : CacheFile) :
    Except String Nat × CacheFile × List AuthEvent :=
  match o.browserCred with
  | .ok td =>
    match o.connectBrowser with
    | .ok c => (.ok c, save_token td config now, [.browserCredAttempt, .tokenSaved td.token])
    | .error e => (.error e, save_token td config now, [.browserCredAttempt, .tokenSaved td.token])
  | .error e => (.error e, file, [.browserCredAttempt])

/-- Embedding of the fresh-acquisition block (lines 305-372): try the
ambient `DefaultAzureCredential` chain, saving and using its token; any
exception in that block (credential failure or driver open failure) falls
through to the browser fallback. -/
def freshAuth (config : DbConfig) (o : EntraOracles) (now : Int) (file : CacheFile) :
    Except String Nat × CacheFile × List AuthEvent :=
  match o.defaultCred with
  | .ok td =>
    match o.connectDefault with
    | .ok c => (.ok c, save_token td config now, [.defaultCredAttempt, .tokenSaved td.token])
    | .error _ =>
      let r := browserAuth config o now (save_token td config now)
      (r.1, r.2.1, [.defaultCredAttempt, .tokenSaved td.token] ++ r.2.2)
  | .error _ =>
    let r := browserAuth config o now file
    (r.1, r.2.1, [.defaultCredAttempt] ++ r.2.2)

/-- Embedding of `get_entra_interactive_connection` (lines 278-372):
ImportError when azure-identity is unavailable; otherwise try the cached
token once, and on a driver failure with it clear the cache exactly once
and fall through to `freshAuth`; with no usable cached token, go straight
to `freshAuth`. Returns the result, the final cache-file state, and the
ordered event trace. -/
def get_entra_interactive_connection (azureAvailable : Bool) (config : DbConfig)
    (file : CacheFile) (now : Int) (o : EntraOracles) (unlinkOk : Bool) :
    Except String Nat × CacheFile × List AuthEvent :=
  if !azureAvailable then (.error "ImportError: azure-identity not available", file, [])
  else
    match load_token config file now with
    | some td =>
      match o.connectCached with
      | .ok c => (.ok c, file, [.cachedConnectAttempt td.token])
      | .error _ =>
        let file1 := match clear_cache file unlinkOk with
          | .ok f => f
          | .error _ => file
        let r := freshAuth config o now file1
        (r.1, r.2.1, [.cachedConnectAttempt td.token, .cacheCleared] ++ r.2.2)
    | none => freshAuth config o now file

/-- Event predicate: is this a `TokenCache.clear_cache()` call. -/
def isCacheCleared : AuthEvent → Bool
  | .cacheCleared => true
  | _ => false

/-- Event predicate: is this a driver open with the cached token. -/
def isCachedConnectAttempt : AuthEvent → Bool
  | .cachedConnectAttempt _ => true
  | _ => false

/-- Event predicate: is this an ambient credential-chain attempt. -/
def isDefaultCredAttempt : AuthEvent → Bool
  | .defaultCredAttempt => true
  | _ => false

/-- Event predicate: is this an interactive browser attempt. -/
def isBrowserCredAttempt : AuthEvent → Bool
  | .browserCredAttempt => true
  | _ => false

/-- C5: in the EntraInteractive path, whenever a cached token is loaded
but the driver open with it fails, the request performs exactly one cache
invalidation, exactly one cached-token attempt (never retried), and
exactly one fresh-authentication pass (one ambient-chain attempt, at most
one interactive fallback) — the sequence does not loop; and if the fresh
acquisition fails on the ambient chain (or on the open with its token) and
the interactive fallback also fails with error `eb`, the request fails
with that last underlying error. -/
theorem entra_cached_failure_single_retry (config : DbConfig) (file : CacheFile)
    (now : Int) (o : EntraOracles) (unlinkOk : Bool) (td : TokenData)
    (hload : load_token config file now = some td)
    (e0 : String) (hfail : o.connectCached = .error e0) :
    ((get_entra_interactive_connection true config file now o unlinkOk).2.2.countP
        isCacheCleared = 1) ∧
    ((get_entra_interactive_connection true config file now o unlinkOk).2.2.countP
        isCachedConnectAttempt = 1) ∧
    ((get_entra_interactive_connection true config file now o unlinkOk).2.2.countP
        isDefaultCredAttempt = 1) ∧
    ((get_entra_interactive_connection true config file now o unlinkOk).2.2.countP
        isBrowserCredAttempt ≤ 1) ∧
    (∀ eb : String,
      ((∃ ed, o.defaultCred = .error ed) ∨
        (∃ td1, o.defaultCred = .ok td1 ∧ ∃ ec, o.connectDefault = .error ec)) →
      (o.browserCred = .error eb ∨
        (∃ td2, o.browserCred = .ok td2 ∧ o.connectBrowser = .error eb)) →
      (get_entra_interactive_connection true config file now o unlinkOk).1 = .error eb) := by
  obtain ⟨cc, dc, cd, bc, cb⟩ := o
  simp only at hfail
  subst hfail
  cases dc <;> cases cd <;> cases bc <;> cases cb <;>
    simp_all [get_entra_interactive_connection, freshAuth, browserAuth,
      isCacheCleared, isCachedConnectAttempt, isDefaultCredAttempt, isBrowserCredAttempt,
      List.countP_cons, List.countP_nil]


/-- C5, witness: concrete request where the cached token "tok" is loaded
and rejected by the driver, the ambient chain fails, and the browser flow
fails: one cache clear and the final error is the browser error. -/
theorem entra_cached_failure_single_retry_witness :
    load_token cfgEx (.record recEx) 0 = some ⟨"tok", 1000⟩ ∧
    ((get_entra_interactive_connection true cfgEx (.record recEx) 0
        ⟨.error "bad token", .error "no cli", .ok 0, .error "browser fail", .ok 0⟩
        true).2.2.countP isCacheCleared = 1) ∧
    (get_entra_interactive_connection true cfgEx (.record recEx) 0
        ⟨.error "bad token", .error "no cli", .ok 0, .error "browser fail", .ok 0⟩
        true).1 = .error "browser fail" :=
  ⟨rfl,
   (entra_cached_failure_single_retry cfgEx (.record recEx) 0
      ⟨.error "bad token", .error "no cli", .ok 0, .error "browser fail", .ok 0⟩
      true ⟨"tok", 1000⟩ rfl "bad token" rfl).1,
   (entra_cached_failure_single_retry cfgEx (.record recEx) 0
      ⟨.error "bad token", .error "no cli", .ok 0, .error "browser fail", .ok 0⟩
      true ⟨"tok", 1000⟩ rfl "bad token" rfl).2.2.2.2 "browser fail"
      (Or.inl ⟨"no cli", rfl⟩) (Or.inl rfl)⟩

end MssqlMcp
